import Mathlib

/-!
Verification of the client-side synchronization protocol of the HidroTakip
task-tracking application (`src/App.tsx` and the storage service in
`src/unnamed/part_001`).

Strings that undergo character-level processing (the cloud bucket identifier)
are embedded as lists of Unicode code points (`List Nat`); every character
class the source manipulates (`[^a-zA-Z0-9-_]`, ASCII lowercasing, JS
whitespace) is ASCII or an explicit code-point set, so this embedding is exact
on the inputs of interest. Opaque string data (task fields, error messages)
stays `String`.
-/

namespace HidroTakip

/-- Modelled from the spec (section 3): task priority enum of `types.ts`,
a file of this repository that is not under `src/`. -/
inductive TaskPriority where
  | low
  | medium
  | high
  | urgent
deriving DecidableEq, Repr

/-- Modelled from the spec (section 3): task status enum of `types.ts`,
a file of this repository that is not under `src/`. -/
inductive TaskStatus where
  | pending
  | inProgress
  | completed
deriving DecidableEq, Repr

/-- Modelled from the spec (section 3): the Task record of `types.ts`,
a file of this repository that is not under `src/`. The sync logic under
verification treats tasks as opaque values compared structurally, so only
decidable equality of this record matters to the claims. -/
structure Task where
  id : String
  title : String
  description : String
  imageUrl : Option String
  machineName : String
  assigneeId : String
  creatorId : String
  priority : TaskPriority
  status : TaskStatus
  createdAt : Nat
  startedAt : Option Nat
  completedAt : Option Nat
  managerNote : Option String
  rating : Option Nat
deriving DecidableEq, Repr

/-- `SyncResult` of `storageService` (src/unnamed/part_001 lines 7-12):
`success : boolean`, optional `data : Task[]`, optional `error : string`. -/
structure SyncResult where
  success : Bool
  data : Option (List Task)
  error : Option String
deriving DecidableEq, Repr

/-- The JSON body of an HTTP response, at the granularity the source
inspects it: `Array.isArray(result)` is the only test performed, and an
array body is used as the task collection without element validation. -/
inductive HttpBody where
  | jsonArray (ts : List Task)
  | jsonOther
deriving DecidableEq, Repr

/-- Outcome of a `fetch` call: either a response with a status code and a
parsed JSON body, or a network-level failure (the `catch` branch). -/
inductive HttpOutcome where
  | response (status : Nat) (body : HttpBody)
  | networkFailure
deriving DecidableEq, Repr

/-- `response.ok` of the Fetch API: status in the range 200-299. -/
def responseOk (status : Nat) : Bool :=
  decide (200 ≤ status ∧ status < 300)

/-- `fetchCloudTasks` (src/unnamed/part_001 lines 15-41), as a function of
the HTTP outcome of its single GET request. -/
def fetchCloudTasks (outcome : HttpOutcome) : SyncResult :=
  match outcome with
  | .networkFailure =>
      { success := false, data := none, error := some "İnternet bağlantısı yok." }
  | .response status body =>
      if responseOk status then
        match body with
        | .jsonArray ts => { success := true, data := some ts, error := none }
        | .jsonOther => { success := true, data := some [], error := none }
      else if status = 404 then
        { success := true, data := some [], error := some "NOT_FOUND" }
      else
        { success := false, data := none, error := some "Veri çekilemedi." }

/-- `updateCloudTasks` (src/unnamed/part_001 lines 44-64), as a function of
the HTTP outcome of its single POST request. -/
def updateCloudTasks (outcome : HttpOutcome) : SyncResult :=
  match outcome with
  | .networkFailure =>
      { success := false, data := none, error := some "Bağlantı hatası." }
  | .response status _ =>
      if responseOk status then
        { success := true, data := none, error := none }
      else
        { success := false, data := none, error := some "Sunucuya kayıt yapılamadı." }

/-! ### Bucket-identifier normalization (App.tsx line 194)

`inputCloudId.trim().replace(/[^a-zA-Z0-9-_]/g, '-').toLowerCase()` -/

/-- Code points removed by JS `String.prototype.trim` (WhiteSpace and
LineTerminator productions). -/
def isJsSpaceCode (n : Nat) : Bool :=
  decide (n = 9 ∨ n = 10 ∨ n = 11 ∨ n = 12 ∨ n = 13 ∨ n = 32 ∨ n = 160 ∨
    n = 5760 ∨ (8192 ≤ n ∧ n ≤ 8202) ∨ n = 8232 ∨ n = 8233 ∨ n = 8239 ∨
    n = 8287 ∨ n = 12288 ∨ n = 65279)

/-- Membership in the character class `[a-zA-Z0-9-_]` of the regex. -/
def isAllowedCode (n : Nat) : Bool :=
  decide ((97 ≤ n ∧ n ≤ 122) ∨ (65 ≤ n ∧ n ≤ 90) ∨ (48 ≤ n ∧ n ≤ 57) ∨
    n = 45 ∨ n = 95)

/-- Action of `.replace(/[^a-zA-Z0-9-_]/g, '-')` on a single character:
characters outside the class become a hyphen (code 45). -/
def replaceCode (n : Nat) : Nat :=
  if isAllowedCode n then n else 45

/-- Action of `.toLowerCase()` on a single character. In the source,
lowercasing only ever sees output of the replace step, which is ASCII, so
the ASCII case map is exact. -/
def lowerCode (n : Nat) : Nat :=
  if 65 ≤ n ∧ n ≤ 90 then n + 32 else n

/-- JS `String.prototype.trim`: drop leading and trailing whitespace. -/
def trimCodes (l : List Nat) : List Nat :=
  ((l.dropWhile isJsSpaceCode).reverse.dropWhile isJsSpaceCode).reverse

/-- The normalization applied to the raw bucket identifier
(App.tsx line 194): trim, then replace disallowed characters with hyphens,
then lowercase. -/
def normalizeCloudId (l : List Nat) : List Nat :=
  ((trimCodes l).map replaceCode).map lowerCode

/-- Code points of a Lean string literal, to state concrete examples. -/
def strCodes (s : String) : List Nat :=
  s.data.map Char.toNat

example : strCodes "ab" = [97, 98] := by decide

example : normalizeCloudId (strCodes "Erkan Usta!") = strCodes "erkan-usta-" := by decide

/-! ### App state and sync handlers (App.tsx) -/

/-- The `syncStatus` state of App.tsx line 30. -/
inductive SyncStatus where
  | offline
  | syncing
  | online
  | error
deriving DecidableEq, Repr

/-- The reactive state of `App` that the sync protocol reads and writes
(App.tsx lines 14, 27-31) together with the persisted bucket-identifier
reference `localStorage['hidro_cloud_id']` (lines 225, 238). -/
structure AppState where
  tasks : List Task
  cloudId : Option (List Nat)
  syncStatus : SyncStatus
  lastSyncTime : Nat
  hidroCloudId : Option (List Nat)
  isSyncModalOpen : Bool
  inputCloudId : List Nat
deriving DecidableEq, Repr

/-- A network request issued by a handler, recorded in order. -/
inductive NetCall where
  | fetchCall (bucketId : List Nat)
  | pushCall (bucketId : List Nat) (body : List Task)
deriving DecidableEq, Repr

/-- Body of the 4-second poll interval (App.tsx lines 70-78), as a function
of the awaited `fetchCloudTasks` result and of `Date.now()` at the moment
the timestamp would be recorded. The source compares the remote and local
collections by `JSON.stringify` equality, embedded as structural equality. -/
def pollTick (res : SyncResult) (now : Nat) (s : AppState) : AppState :=
  if res.success then
    match res.data with
    | some d =>
        if 0 < d.length then
          let s1 := if d ≠ s.tasks then { s with tasks := d, lastSyncTime := now } else s
          if s1.syncStatus ≠ .online then { s1 with syncStatus := .online } else s1
        else s
    | none => s
  else s

/-- One firing of the poll effect (App.tsx lines 65-82): the interval only
exists while `cloudId` is set, and each tick fetches the active bucket. The
environment is an oracle giving the fetch result for each bucket id. -/
def pollStep (fetchResultFor : List Nat → SyncResult) (now : Nat) (s : AppState) :
    AppState × List NetCall :=
  match s.cloudId with
  | none => (s, [])
  | some b => (pollTick (fetchResultFor b) now s, [.fetchCall b])

/-- Synchronous phase of `updateTasksAndSync` (App.tsx lines 106-112): the
optimistic local update, the `syncing` status, and the fire-and-forget POST
(issued only while a bucket is active). -/
def updateTasksAndSyncLocal (newTasks : List Task) (s : AppState) :
    AppState × List NetCall :=
  let s1 := { s with tasks := newTasks }
  match s.cloudId with
  | some b => ({ s1 with syncStatus := .syncing }, [.pushCall b newTasks])
  | none => (s1, [])

/-- Completion callback of the fire-and-forget push (App.tsx lines 112-119):
on success status `online` and a fresh last-sync timestamp, on failure
status `error`; the task collection is never touched. -/
def pushResolve (res : SyncResult) (now : Nat) (s : AppState) : AppState :=
  if res.success then
    { s with syncStatus := .online, lastSyncTime := now }
  else
    { s with syncStatus := .error }

/-- `handleConnectCloud` (App.tsx lines 190-233), as a function of the
awaited fetch result, the awaited init-push result (consulted only on the
`NOT_FOUND` branch), and the user's answer to the replacement `confirm`
dialog (consulted only when the fetched collection is non-empty). Returns
the new state and the network calls issued, in order. UI alerts are
presentation-layer effects outside this state model. -/
def handleConnectCloud (fetchRes : SyncResult) (pushRes : SyncResult)
    (confirmAns : Bool) (s : AppState) : AppState × List NetCall :=
  if s.inputCloudId.isEmpty then (s, [])
  else
    let cleanId := normalizeCloudId s.inputCloudId
    if cleanId.length < 3 then (s, [])
    else
      let s1 := { s with syncStatus := SyncStatus.syncing }
      if fetchRes.success then
        if fetchRes.error = some "NOT_FOUND" then
          if pushRes.success then
            ({ s1 with cloudId := some cleanId, hidroCloudId := some cleanId,
                       syncStatus := .online, isSyncModalOpen := false,
                       inputCloudId := [] },
             [.fetchCall cleanId, .pushCall cleanId s.tasks])
          else
            ({ s1 with syncStatus := .error },
             [.fetchCall cleanId, .pushCall cleanId s.tasks])
        else
          let s2 :=
            match fetchRes.data with
            | some d =>
                if 0 < d.length then
                  if confirmAns then { s1 with tasks := d } else s1
                else s1
            | none => s1
          ({ s2 with cloudId := some cleanId, hidroCloudId := some cleanId,
                     syncStatus := .online, isSyncModalOpen := false,
                     inputCloudId := [] },
           [.fetchCall cleanId])
      else
        ({ s1 with syncStatus := .error }, [.fetchCall cleanId])

/-- `handleDisconnectCloud` (App.tsx lines 235-241), as a function of the
user's answer to the confirmation dialog. -/
def handleDisconnectCloud (confirmAns : Bool) (s : AppState) : AppState :=
  if confirmAns then
    { s with cloudId := none, hidroCloudId := none, syncStatus := .offline }
  else s

/-- A concrete task used by the concrete-input witnesses. -/
def sampleTask : Task :=
  { id := "t1", title := "pres", description := "d", imageUrl := none,
    machineName := "m1", assigneeId := "u2", creatorId := "u1",
    priority := .medium, status := .pending, createdAt := 0,
    startedAt := none, completedAt := none, managerNote := none,
    rating := none }

/-- A concrete app state used by the concrete-input witnesses. -/
def sampleState : AppState :=
  { tasks := [sampleTask], cloudId := some (strCodes "oda-1"),
    syncStatus := .online, lastSyncTime := 10,
    hidroCloudId := some (strCodes "oda-1"), isSyncModalOpen := false,
    inputCloudId := [] }

/-- A concrete successful fetch result used by the witnesses. -/
def okRes (ts : List Task) : SyncResult :=
  { success := true, data := some ts, error := none }

/-- A concrete failed result used by the witnesses. -/
def failRes : SyncResult :=
  { success := false, data := none, error := some "Bağlantı hatası." }

/-- A concrete successful push result used by the witnesses. -/
def pushOkRes : SyncResult :=
  { success := true, data := none, error := none }

/-! ### Helper lemmas about the normalization -/

/-- Every character emitted by the normalization pipeline is non-whitespace,
inside the allowed class, and already lowercase. -/
lemma normCode_canonical (n : Nat) :
    isJsSpaceCode (lowerCode (replaceCode n)) = false ∧
    replaceCode (lowerCode (replaceCode n)) = lowerCode (replaceCode n) ∧
    lowerCode (lowerCode (replaceCode n)) = lowerCode (replaceCode n) := by
  simp only [replaceCode, lowerCode, isJsSpaceCode, isAllowedCode]
  split_ifs <;> simp_all [decide_eq_true_eq, decide_eq_false_iff_not] <;> omega

/-- Every element of a normalized identifier is canonical. -/
lemma mem_normalizeCloudId_canonical (x : Nat) (l : List Nat)
    (hx : x ∈ normalizeCloudId l) :
    isJsSpaceCode x = false ∧ replaceCode x = x ∧ lowerCode x = x := by
  unfold normalizeCloudId at hx
  obtain ⟨y, hy, rfl⟩ := List.mem_map.1 hx
  obtain ⟨z, _, rfl⟩ := List.mem_map.1 hy
  exact normCode_canonical z

/-- `dropWhile` is the identity on a list no element of which satisfies the
predicate. -/
lemma dropWhile_eq_self_of_none (p : Nat → Bool) (l : List Nat)
    (h : ∀ x ∈ l, p x = false) : l.dropWhile p = l := by
  cases l with
  | nil => rfl
  | cons a as =>
      exact List.dropWhile_cons_of_neg (by simp [h a (by simp)])

/-- `trimCodes` is the identity on a list with no whitespace character. -/
lemma trimCodes_eq_self (l : List Nat)
    (h : ∀ x ∈ l, isJsSpaceCode x = false) : trimCodes l = l := by
  unfold trimCodes
  rw [dropWhile_eq_self_of_none _ _ h,
    dropWhile_eq_self_of_none _ _ (fun x hx => h x (List.mem_reverse.1 hx)),
    List.reverse_reverse]

/-- `map f` is the identity when `f` fixes every element. -/
lemma map_eq_self_of_fixed (f : Nat → Nat) (l : List Nat)
    (h : ∀ x ∈ l, f x = x) : l.map f = l := by
  rw [List.map_congr_left h]
  simp

/-- The tasks of the state after `updateTasksAndSyncLocal` are exactly the
new collection, whether or not a bucket is active. -/
lemma updateTasksAndSyncLocal_tasks (nt : List Task) (s : AppState) :
    (updateTasksAndSyncLocal nt s).1.tasks = nt := by
  unfold updateTasksAndSyncLocal
  cases h : s.cloudId <;> simp

/-- `pushResolve` never changes the task collection, the active bucket id,
or the persisted bucket id. -/
lemma pushResolve_frame (r : SyncResult) (now : Nat) (s : AppState) :
    (pushResolve r now s).tasks = s.tasks ∧
    (pushResolve r now s).cloudId = s.cloudId ∧
    (pushResolve r now s).hidroCloudId = s.hidroCloudId := by
  unfold pushResolve
  split_ifs <;> simp

/-- Whenever `handleConnectCloud` passes validation, its first network call
is a fetch of the normalized bucket id. -/
lemma handleConnectCloud_first_call (fetchRes pushRes : SyncResult)
    (confirmAns : Bool) (s : AppState)
    (h1 : s.inputCloudId.isEmpty = false)
    (h2 : ¬ (normalizeCloudId s.inputCloudId).length < 3) :
    (handleConnectCloud fetchRes pushRes confirmAns s).2.head? =
      some (.fetchCall (normalizeCloudId s.inputCloudId)) := by
  unfold handleConnectCloud
  simp only [h1, Bool.false_eq_true, if_false, if_neg h2]
  split_ifs <;> rfl

/-! ### Claim theorems -/

/-- C9: bucket-identifier normalization is idempotent — for every input
string (embedded as its code-point list), normalizing the output of the
normalization yields the same result as normalizing once. -/
theorem normalizeCloudId_idempotent (l : List Nat) :
    normalizeCloudId (normalizeCloudId l) = normalizeCloudId l := by
  have h := fun x hx => mem_normalizeCloudId_canonical x l hx
  calc normalizeCloudId (normalizeCloudId l)
      = ((trimCodes (normalizeCloudId l)).map replaceCode).map lowerCode := rfl
    _ = ((normalizeCloudId l).map replaceCode).map lowerCode := by
        rw [trimCodes_eq_self _ (fun x hx => (h x hx).1)]
    _ = (normalizeCloudId l).map lowerCode := by
        rw [map_eq_self_of_fixed _ _ (fun x hx => (h x hx).2.1)]
    _ = normalizeCloudId l := map_eq_self_of_fixed _ _ (fun x hx => (h x hx).2.2)

/-- C2: `fetchCloudTasks` maps every HTTP outcome to a tagged result value
(it is total, hence never throws across its boundary): a successful
response with an array body gives success with that array; a successful
response with a non-array body gives success with an empty collection;
a 404 gives success with an empty collection and the `NOT_FOUND` sentinel;
any other status gives failure with the generic remote-error message; a
network-level failure gives failure with the generic connectivity-error
message. -/
theorem fetchCloudTasks_cases (sOk sErr : Nat) (ts : List Task)
    (b404 bErr : HttpBody) :
    fetchCloudTasks .networkFailure =
      { success := false, data := none, error := some "İnternet bağlantısı yok." } ∧
    (responseOk sOk = true →
      fetchCloudTasks (.response sOk (.jsonArray ts)) =
        { success := true, data := some ts, error := none }) ∧
    (responseOk sOk = true →
      fetchCloudTasks (.response sOk .jsonOther) =
        { success := true, data := some [], error := none }) ∧
    fetchCloudTasks (.response 404 b404) =
      { success := true, data := some [], error := some "NOT_FOUND" } ∧
    (responseOk sErr = false → sErr ≠ 404 →
      fetchCloudTasks (.response sErr bErr) =
        { success := false, data := none, error := some "Veri çekilemedi." }) := by
  refine ⟨rfl, ?_, ?_, ?_, ?_⟩
  · intro h
    simp [fetchCloudTasks, h]
  · intro h
    simp [fetchCloudTasks, h]
  · simp [fetchCloudTasks, responseOk]
  · intro h1 h2
    simp [fetchCloudTasks, h1, h2]

/-- C2 witness: concrete evaluations of the 200-with-array case and the
500 remote-error case. -/
theorem fetchCloudTasks_cases_witness :
    responseOk 200 = true ∧ responseOk 500 = false ∧
    fetchCloudTasks (.response 200 (.jsonArray [sampleTask])) =
      { success := true, data := some [sampleTask], error := none } ∧
    fetchCloudTasks (.response 500 .jsonOther) =
      { success := false, data := none, error := some "Veri çekilemedi." } :=
  ⟨by decide, by decide,
   (fetchCloudTasks_cases 200 500 [sampleTask] .jsonOther .jsonOther).2.1 (by decide),
   (fetchCloudTasks_cases 200 500 [sampleTask] .jsonOther .jsonOther).2.2.2.2
     (by decide) (by decide)⟩

/-- C1: for every active bucket id, a poll whose fetch succeeds with a
non-empty collection equal to the local one leaves the task collection and
the last-sync timestamp unchanged, while a non-empty collection that
differs replaces the local collection wholesale and records the new
timestamp. -/
theorem pollStep_skip_or_replace (f : List Nat → SyncResult) (now : Nat)
    (s : AppState) (b : List Nat) (d : List Task)
    (hb : s.cloudId = some b) (hs : (f b).success = true)
    (hd : (f b).data = some d) (hne : d ≠ []) :
    (d = s.tasks →
      (pollStep f now s).1.tasks = s.tasks ∧
      (pollStep f now s).1.lastSyncTime = s.lastSyncTime) ∧
    (d ≠ s.tasks →
      (pollStep f now s).1.tasks = d ∧
      (pollStep f now s).1.lastSyncTime = now) := by
  have hlen : 0 < d.length := List.length_pos.2 hne
  constructor
  · intro heq
    simp only [pollStep, hb, pollTick, hs, hd, hlen, if_true, if_pos hlen, heq]
    split_ifs <;> simp_all
  · intro hne2
    simp only [pollStep, hb, pollTick, hs, hd, if_true, if_pos hlen, ne_eq,
      hne2, not_false_iff, if_pos]
    split_ifs <;> simp_all

/-- C1 witness: a concrete poll against the sample state whose remote
collection equals the local one. -/
theorem pollStep_skip_or_replace_witness :
    sampleState.cloudId = some (strCodes "oda-1") ∧
    ((fun _ => okRes [sampleTask]) (strCodes "oda-1")).success = true ∧
    ((fun _ => okRes [sampleTask]) (strCodes "oda-1")).data = some [sampleTask] ∧
    ([sampleTask] : List Task) ≠ [] ∧
    (([sampleTask] : List Task) = sampleState.tasks →
      (pollStep (fun _ => okRes [sampleTask]) 11 sampleState).1.tasks = sampleState.tasks ∧
      (pollStep (fun _ => okRes [sampleTask]) 11 sampleState).1.lastSyncTime = sampleState.lastSyncTime) ∧
    (([sampleTask] : List Task) ≠ sampleState.tasks →
      (pollStep (fun _ => okRes [sampleTask]) 11 sampleState).1.tasks = [sampleTask] ∧
      (pollStep (fun _ => okRes [sampleTask]) 11 sampleState).1.lastSyncTime = 11) :=
  ⟨rfl, rfl, rfl, by decide,
   (pollStep_skip_or_replace (fun _ => okRes [sampleTask]) 11 sampleState
     (strCodes "oda-1") [sampleTask] rfl rfl rfl (by decide)).1,
   (pollStep_skip_or_replace (fun _ => okRes [sampleTask]) 11 sampleState
     (strCodes "oda-1") [sampleTask] rfl rfl rfl (by decide)).2⟩

/-- C3: normalizing the input string Erkan Usta! yields exactly
erkan-usta- (spaces and punctuation become hyphens, letters are
lowercased), whose length is at least 3, and `handleConnectCloud` accepts
it: its first network call is a fetch of that normalized id. -/
theorem connect_example_normalized_accepted (fetchRes pushRes : SyncResult)
    (confirmAns : Bool) (s : AppState)
    (h : s.inputCloudId = strCodes "Erkan Usta!") :
    normalizeCloudId (strCodes "Erkan Usta!") = strCodes "erkan-usta-" ∧
    3 ≤ (normalizeCloudId (strCodes "Erkan Usta!")).length ∧
    (handleConnectCloud fetchRes pushRes confirmAns s).2.head? =
      some (.fetchCall (strCodes "erkan-usta-")) := by
  refine ⟨by decide, by decide, ?_⟩
  have h1 : s.inputCloudId.isEmpty = false := by rw [h]; decide
  have h2 : ¬ (normalizeCloudId s.inputCloudId).length < 3 := by rw [h]; decide
  rw [handleConnectCloud_first_call fetchRes pushRes confirmAns s h1 h2, h]
  decide

/-- C3 witness: the concrete connect on the sample state with that exact
raw input. -/
theorem connect_example_normalized_accepted_witness :
    ({ sampleState with inputCloudId := strCodes "Erkan Usta!" } : AppState).inputCloudId = strCodes "Erkan Usta!" ∧
    (normalizeCloudId (strCodes "Erkan Usta!") = strCodes "erkan-usta-" ∧
     3 ≤ (normalizeCloudId (strCodes "Erkan Usta!")).length ∧
     (handleConnectCloud (okRes []) pushOkRes false { sampleState with inputCloudId := strCodes "Erkan Usta!" }).2.head? =
       some (.fetchCall (strCodes "erkan-usta-"))) :=
  ⟨rfl,
   connect_example_normalized_accepted (okRes []) pushOkRes false
     { sampleState with inputCloudId := strCodes "Erkan Usta!" } rfl⟩

/-- C4: while a bucket is active, a local mutation updates the task
collection synchronously and fires the push at once; resolution of a push
(success or failure) only touches the sync status and last-sync timestamp,
never the tasks or bucket ids, so after mutations M1 then M2 the tasks
equal M2 applied after M1 whatever the resolution order, and a failed push
is never rolled back. -/
theorem optimistic_update_no_rollback (s : AppState) (bkt : List Nat)
    (m1 m2 : List Task → List Task) (r : SyncResult) (now : Nat)
    (hb : s.cloudId = some bkt) :
    (updateTasksAndSyncLocal (m1 s.tasks) s).1.tasks = m1 s.tasks ∧
    (updateTasksAndSyncLocal (m1 s.tasks) s).2 =
      [.pushCall bkt (m1 s.tasks)] ∧
    ((pushResolve r now s).tasks = s.tasks ∧
     (pushResolve r now s).cloudId = s.cloudId ∧
     (pushResolve r now s).hidroCloudId = s.hidroCloudId) ∧
    (let s1 := (updateTasksAndSyncLocal (m1 s.tasks) s).1
     let sP := pushResolve r now s1
     (updateTasksAndSyncLocal (m2 sP.tasks) sP).1.tasks = m2 (m1 s.tasks)) ∧
    (let s1 := (updateTasksAndSyncLocal (m1 s.tasks) s).1
     let s2 := (updateTasksAndSyncLocal (m2 s1.tasks) s1).1
     (pushResolve r now s2).tasks = m2 (m1 s.tasks)) := by
  refine ⟨updateTasksAndSyncLocal_tasks _ s, ?_, pushResolve_frame r now s, ?_, ?_⟩
  · unfold updateTasksAndSyncLocal
    simp [hb]
  · simp only [updateTasksAndSyncLocal_tasks, (pushResolve_frame r now _).1]
  · simp only [updateTasksAndSyncLocal_tasks, (pushResolve_frame r now _).1]

/-- C4 witness: two concrete mutations on the sample state with a failed
push resolution in between. -/
theorem optimistic_update_no_rollback_witness :
    sampleState.cloudId = some (strCodes "oda-1") ∧
    (let s1 := (updateTasksAndSyncLocal ((fun l => sampleTask :: l) sampleState.tasks) sampleState).1
     let sP := pushResolve failRes 12 s1
     (updateTasksAndSyncLocal ((fun l => l.drop 1) sP.tasks) sP).1.tasks =
       (fun l => l.drop 1) ((fun l => sampleTask :: l) sampleState.tasks)) :=
  ⟨rfl,
   (optimistic_update_no_rollback sampleState (strCodes "oda-1")
     (fun l => sampleTask :: l) (fun l => l.drop 1) failRes 12 rfl).2.2.2.1⟩

/-- C5: when connect passes validation and the fetch signals `NOT_FOUND`,
the current local collection is pushed to the new bucket at once; a failed
push leaves everything but the sync status unchanged (status `error`,
bucket id neither activated nor persisted); a successful push activates
and persists the bucket id with status `online`. -/
theorem connect_not_found_initializes (fetchRes pushRes : SyncResult)
    (confirmAns : Bool) (s : AppState)
    (h1 : s.inputCloudId ≠ [])
    (h2 : 3 ≤ (normalizeCloudId s.inputCloudId).length)
    (hf : fetchRes.success = true)
    (hnf : fetchRes.error = some "NOT_FOUND") :
    (handleConnectCloud fetchRes pushRes confirmAns s).2 =
      [.fetchCall (normalizeCloudId s.inputCloudId),
       .pushCall (normalizeCloudId s.inputCloudId) s.tasks] ∧
    (pushRes.success = false →
      (handleConnectCloud fetchRes pushRes confirmAns s).1 =
        { s with syncStatus := .error }) ∧
    (pushRes.success = true →
      (handleConnectCloud fetchRes pushRes confirmAns s).1.cloudId =
          some (normalizeCloudId s.inputCloudId) ∧
      (handleConnectCloud fetchRes pushRes confirmAns s).1.hidroCloudId =
          some (normalizeCloudId s.inputCloudId) ∧
      (handleConnectCloud fetchRes pushRes confirmAns s).1.syncStatus = .online) := by
  have he : s.inputCloudId.isEmpty = false := by
    cases hc : s.inputCloudId with
    | nil => exact absurd hc h1
    | cons a l => rfl
  have h2n : ¬ (normalizeCloudId s.inputCloudId).length < 3 := by omega
  unfold handleConnectCloud
  simp only [he, Bool.false_eq_true, if_false, if_neg h2n, hf, if_true, hnf,
    if_pos rfl]
  refine ⟨?_, ?_, ?_⟩
  · split_ifs <;> rfl
  · intro hp
    simp [hp]
  · intro hp
    simp [hp]

/-- C5 witness: a concrete first-time connect whose 404 fetch is followed
by a successful init push. -/
theorem connect_not_found_initializes_witness :
    ({ sampleState with inputCloudId := strCodes "oda-2" } : AppState).inputCloudId ≠ [] ∧
    3 ≤ (normalizeCloudId ({ sampleState with inputCloudId := strCodes "oda-2" } : AppState).inputCloudId).length ∧
    (fetchCloudTasks (.response 404 .jsonOther)).success = true ∧
    (fetchCloudTasks (.response 404 .jsonOther)).error = some "NOT_FOUND" ∧
    (pushOkRes.success = true →
      (handleConnectCloud (fetchCloudTasks (.response 404 .jsonOther)) pushOkRes false
          { sampleState with inputCloudId := strCodes "oda-2" }).1.cloudId =
        some (normalizeCloudId (strCodes "oda-2")) ∧
      (handleConnectCloud (fetchCloudTasks (.response 404 .jsonOther)) pushOkRes false
          { sampleState with inputCloudId := strCodes "oda-2" }).1.hidroCloudId =
        some (normalizeCloudId (strCodes "oda-2")) ∧
      (handleConnectCloud (fetchCloudTasks (.response 404 .jsonOther)) pushOkRes false
          { sampleState with inputCloudId := strCodes "oda-2" }).1.syncStatus = .online) :=
  ⟨by decide, by decide, by decide, by decide,
   (connect_not_found_initializes (fetchCloudTasks (.response 404 .jsonOther))
     pushOkRes false { sampleState with inputCloudId := strCodes "oda-2" }
     (by decide) (by decide) (by decide) (by decide)).2.2⟩

/-- C6: a raw identifier whose normalized form is shorter than 3
characters is rejected by connect with no state change and no network
call at all (the UI alert is a presentation effect outside the state). -/
theorem connect_short_id_rejected (fetchRes pushRes : SyncResult)
    (confirmAns : Bool) (s : AppState)
    (h : (normalizeCloudId s.inputCloudId).length < 3) :
    handleConnectCloud fetchRes pushRes confirmAns s = (s, []) := by
  unfold handleConnectCloud
  by_cases he : s.inputCloudId.isEmpty <;> simp [he, h]

/-- C6 witness: the concrete input ab is rejected without any call. -/
theorem connect_short_id_rejected_witness :
    (normalizeCloudId ({ sampleState with inputCloudId := strCodes "ab" } : AppState).inputCloudId).length < 3 ∧
    handleConnectCloud (okRes []) pushOkRes false
        { sampleState with inputCloudId := strCodes "ab" } =
      ({ sampleState with inputCloudId := strCodes "ab" }, []) :=
  ⟨by decide,
   connect_short_id_rejected (okRes []) pushOkRes false
     { sampleState with inputCloudId := strCodes "ab" } (by decide)⟩

/-- C7 counterexample: the claim says a failed poll while `online` makes
the status leave `online`; but on the sample state (status `online`) a
poll whose fetch fails leaves the status at `online` — the interval body
has no failure branch at all. -/
theorem pollTick_failure_keeps_online_counterexample :
    (pollTick failRes 99 sampleState).syncStatus = .online ∧
    failRes.success = false ∧ sampleState.syncStatus = .online := by
  decide

/-- C7 (amended): a poll whose fetch fails changes nothing at all — the
sync status (and the whole state) is left unchanged in every status,
including `online`; no failure is surfaced. -/
theorem pollTick_failure_unchanged (res : SyncResult) (now : Nat)
    (s : AppState) (h : res.success = false) : pollTick res now s = s := by
  unfold pollTick
  simp [h]

/-- C7 witness: a concrete failed poll on the sample state. -/
theorem pollTick_failure_unchanged_witness :
    failRes.success = false ∧ pollTick failRes 7 sampleState = sampleState :=
  ⟨by decide, pollTick_failure_unchanged failRes 7 sampleState (by decide)⟩

/-- C8: disconnect (with the confirmation accepted) clears the active
bucket id, removes the persisted bucket reference, sets the status to
`offline`, leaves the task collection unchanged, and afterwards the poll
loop issues no further fetch calls. -/
theorem disconnect_clears_id_keeps_tasks (s : AppState)
    (f : List Nat → SyncResult) (now : Nat) :
    (handleDisconnectCloud true s).cloudId = none ∧
    (handleDisconnectCloud true s).hidroCloudId = none ∧
    (handleDisconnectCloud true s).syncStatus = .offline ∧
    (handleDisconnectCloud true s).tasks = s.tasks ∧
    pollStep f now (handleDisconnectCloud true s) =
      (handleDisconnectCloud true s, []) := by
  unfold handleDisconnectCloud pollStep
  simp

/-- C10: when connect fetches a non-empty remote collection and the user
declines the replacement dialog, the local tasks stay unchanged, yet the
bucket id is still activated and persisted with status `online`, and a
subsequent poll fetching that same remote collection (if it differs from
the local one) replaces the declined local collection anyway. -/
theorem connect_decline_still_connects (fetchRes pushRes : SyncResult)
    (s : AppState) (d : List Task) (now : Nat)
    (h1 : s.inputCloudId ≠ [])
    (h2 : 3 ≤ (normalizeCloudId s.inputCloudId).length)
    (hf : fetchRes.success = true)
    (hnf : fetchRes.error ≠ some "NOT_FOUND")
    (hd : fetchRes.data = some d) (hne : d ≠ []) :
    (handleConnectCloud fetchRes pushRes false s).1.tasks = s.tasks ∧
    (handleConnectCloud fetchRes pushRes false s).1.cloudId =
      some (normalizeCloudId s.inputCloudId) ∧
    (handleConnectCloud fetchRes pushRes false s).1.hidroCloudId =
      some (normalizeCloudId s.inputCloudId) ∧
    (handleConnectCloud fetchRes pushRes false s).1.syncStatus = .online ∧
    (d ≠ s.tasks →
      (pollTick fetchRes now (handleConnectCloud fetchRes pushRes false s).1).tasks = d) := by
  have he : s.inputCloudId.isEmpty = false := by
    cases hc : s.inputCloudId with
    | nil => exact absurd hc h1
    | cons a l => rfl
  have h2n : ¬ (normalizeCloudId s.inputCloudId).length < 3 := by omega
  have hlen : 0 < d.length := List.length_pos.2 hne
  have hmain : (handleConnectCloud fetchRes pushRes false s).1 =
      { s with cloudId := some (normalizeCloudId s.inputCloudId),
               hidroCloudId := some (normalizeCloudId s.inputCloudId),
               syncStatus := .online, isSyncModalOpen := false,
               inputCloudId := [] } := by
    unfold handleConnectCloud
    simp only [he, Bool.false_eq_true, if_false, if_neg h2n, hf, if_true,
      if_neg hnf, hd, if_pos hlen, if_false, Bool.false_eq_true]
  rw [hmain]
  refine ⟨rfl, rfl, rfl, rfl, ?_⟩
  intro hne2
  unfold pollTick
  simp [hf, hd, hlen, hne2]

/-- C10 witness: a concrete declined connect against a bucket holding a
different task, followed by the poll that replaces the local tasks. -/
theorem connect_decline_still_connects_witness :
    ({ sampleState with inputCloudId := strCodes "oda-3" } : AppState).inputCloudId ≠ [] ∧
    3 ≤ (normalizeCloudId ({ sampleState with inputCloudId := strCodes "oda-3" } : AppState).inputCloudId).length ∧
    (okRes [sampleTask, sampleTask]).success = true ∧
    (okRes [sampleTask, sampleTask]).error ≠ some "NOT_FOUND" ∧
    (okRes [sampleTask, sampleTask]).data = some [sampleTask, sampleTask] ∧
    ([sampleTask, sampleTask] : List Task) ≠ [] ∧
    (handleConnectCloud (okRes [sampleTask, sampleTask]) pushOkRes false
        { sampleState with inputCloudId := strCodes "oda-3" }).1.tasks =
      ({ sampleState with inputCloudId := strCodes "oda-3" } : AppState).tasks ∧
    (([sampleTask, sampleTask] : List Task) ≠ ({ sampleState with inputCloudId := strCodes "oda-3" } : AppState).tasks →
      (pollTick (okRes [sampleTask, sampleTask]) 13
        (handleConnectCloud (okRes [sampleTask, sampleTask]) pushOkRes false
          { sampleState with inputCloudId := strCodes "oda-3" }).1).tasks =
        [sampleTask, sampleTask]) :=
  ⟨by decide, by decide, by decide, by decide, by decide, by decide,
   (connect_decline_still_connects (okRes [sampleTask, sampleTask]) pushOkRes
     { sampleState with inputCloudId := strCodes "oda-3" }
     [sampleTask, sampleTask] 13 (by decide) (by decide) (by decide)
     (by decide) (by decide) (by decide)).1,
   (connect_decline_still_connects (okRes [sampleTask, sampleTask]) pushOkRes
     { sampleState with inputCloudId := strCodes "oda-3" }
     [sampleTask, sampleTask] 13 (by decide) (by decide) (by decide)
     (by decide) (by decide) (by decide)).2.2.2.2⟩

end HidroTakip
